import Mathlib

/-!
Verification of the pi-client repository (camera.py and client.py) against
its specification, over a shallow embedding of the two modules.

camera.py: the PiCamera object is modelled as an explicit state record
threaded through its methods. The two hardware backends and the capture
hardware are modelled as boolean/enumerated oracles indexed by the attempt
number, and the on-disk artifacts of a still capture as a record holding
the scratch file (the NamedTemporaryFile path used by the picamera2
branch) and the published file (the unique image_<ts>_<uuid>.jpg filename
in the temp directory).

client.py: the stream registry (the active_streams dict) is an
association list with Python-dict semantics, message dispatch is a
function on that registry, and the side effects of the reconnect path of
handle_server_messages are an explicit effect list.
-/

/-- Camera backend actually selected, mirroring self.camera_type
(the source strings picamera2, legacy, disabled; None is Option.none). -/
inductive CamType
  | pica2
  | legacy
  | disabled
  deriving DecidableEq

/-- Mutable attributes of a PiCamera object read or written by initialize,
capture_image and cleanup. camera abstracts whether self.camera is a
backend object (not None). When NO_CAMERA is set, PiCamera.__init__
returns before assigning max_init_attempts and current_attempt; no code
path reads them in that mode, so the record simply carries defaults. -/
structure CameraState where
  camera : Bool
  initialized : Bool
  camera_type : Option CamType
  no_camera : Bool
  max_init_attempts : Nat
  current_attempt : Nat
  deriving DecidableEq

/-- PiCamera.__init__, with the NO_CAMERA environment flag as argument. -/
def initCameraState (noCamera : Bool) : CameraState :=
  if noCamera then
    { camera := false
      initialized := false
      camera_type := some CamType.disabled
      no_camera := true
      max_init_attempts := 3
      current_attempt := 0 }
  else
    { camera := false
      initialized := false
      camera_type := none
      no_camera := false
      max_init_attempts := 3
      current_attempt := 0 }

/-- Outcome oracles for the two backend helpers, indexed by the attempt
number (the value of current_attempt during that attempt).
_try_initialize_picamera2 and _try_initialize_legacy catch their own
exceptions and return a boolean, so each is a Bool-valued oracle. -/
structure BackendEnv where
  tryPicamera2 : Nat → Bool
  tryLegacy : Nat → Bool

/-- Body of PiCamera.initialize after the NO_CAMERA early return. The
source retries through a recursive self-call guarded by
current_attempt < max_init_attempts; fuel is the number of retries that
guard can still allow (max_init_attempts - current_attempt at entry), so
the fuel-zero arm under the guard is unreachable, and it returns the same
value as the exhausted-budget arm. The Bool is the return value, the
List Nat records the sleep durations performed (10 seconds between
attempts, lines 68-74 of camera.py). On success the helper has set
self.camera, self.initialized and self.camera_type. -/
def initializeGo (env : BackendEnv) : Nat → CameraState → Bool × CameraState × List Nat
  | fuel, s =>
    let s1 := { s with current_attempt := s.current_attempt + 1 }
    if env.tryPicamera2 s1.current_attempt then
      (true, { s1 with
                 camera := true
                 initialized := true
                 camera_type := some CamType.pica2 }, [])
    else if env.tryLegacy s1.current_attempt then
      (true, { s1 with
                 camera := true
                 initialized := true
                 camera_type := some CamType.legacy }, [])
    else if s1.current_attempt < s1.max_init_attempts then
      match fuel with
      | f + 1 =>
        let t := initializeGo env f s1
        (t.1, t.2.1, 10 :: t.2.2)
      | 0 => (false, s1, [])
    else
      (false, s1, [])

/-- PiCamera.initialize. The except branch of the source (camera.py lines
76-85) duplicates the same retry-or-fail logic and is reachable only if
logging or sleeping raises, since both backend helpers catch their own
exceptions; it is therefore not modelled separately. -/
def initializeCamera (env : BackendEnv) (s : CameraState) : Bool × CameraState × List Nat :=
  if s.no_camera then (false, s, [])
  else initializeGo env (s.max_init_attempts - s.current_attempt) s

/-- One call into the capture hardware, per attempt index: either the
call raises, or it writes a file of n bytes at the requested path. -/
inductive CapAttempt
  | raises
  | writes (n : Nat)
  deriving DecidableEq

/-- On-disk artifacts of one capture_image call: the scratch file (the
NamedTemporaryFile used by the picamera2 branch) and the published file
(the fresh image_...jpg path in the temp directory); none means the path
does not exist, some n a file of n bytes. -/
structure Fs where
  scratch : Option Nat
  final : Option Nat
  deriving DecidableEq

/-- os.path.exists(p) and os.path.getsize(p) > 0. -/
def fileOkay : Option Nat → Bool
  | some n => decide (0 < n)
  | none => false

/-- PiCamera.cleanup(partial). onlyBackend is the partial flag: the
backend object is released whenever present; the temp directory (where
the published path lives) is purged only on a full cleanup outside
NO_CAMERA mode. The scratch path lives in the system temp directory, not
in temp_dir, so cleanup never touches it. -/
def cleanup (onlyBackend : Bool) (s : CameraState) (fs : Fs) : CameraState × Fs :=
  let s1 := if s.camera then { s with camera := false, initialized := false } else s
  if !onlyBackend && !s.no_camera then (s1, { fs with final := none }) else (s1, fs)

/-- The outer except handler of capture_image (camera.py lines 229-241):
cleanup(partial=True), sleep 2 seconds, self.initialize(), then return
None. It does not touch any file. -/
def captureExceptHandler (env : BackendEnv) (s : CameraState) (fs : Fs) :
    Bool × CameraState × Fs × List Nat :=
  let p := cleanup true s fs
  let t := initializeCamera env p.1
  (false, t.2.1, p.2, 2 :: t.2.2)

/-- The legacy-branch retry loop of capture_image (camera.py lines
199-218): attempt is the loop index of range(max_attempts), remaining the
iterations the range can still produce, so the source guard
attempt < max_attempts - 1 is remaining > 0. Each write goes directly to
the published filename; an empty write or a raise is retried after a
1-second sleep, and the written file is not removed on failure. -/
def legacyGo (beh : Nat → CapAttempt) (attempt : Nat) : Nat → Fs → Bool × Fs × List Nat
  | 0, fs =>
    match beh attempt with
    | CapAttempt.raises => (false, fs, [])
    | CapAttempt.writes n =>
      let fs1 := { fs with final := some n }
      if 0 < n then (true, fs1, []) else (false, fs1, [])
  | remaining + 1, fs =>
    match beh attempt with
    | CapAttempt.raises =>
      let t := legacyGo beh (attempt + 1) remaining fs
      (t.1, t.2.1, 1 :: t.2.2)
    | CapAttempt.writes n =>
      let fs1 := { fs with final := some n }
      if 0 < n then (true, fs1, [])
      else
        let t := legacyGo beh (attempt + 1) remaining fs1
        (t.1, t.2.1, 1 :: t.2.2)

/-- PiCamera.capture_image (camera.py lines 153-241). env drives the
reinitialize performed by the failure handler, beh the capture hardware.
In the picamera2 branch NamedTemporaryFile first creates an empty scratch
file, capture_file writes into it, the inner try verifies it is non-empty
and os.rename publishes it (removing it on any inner failure and
re-raising); in the legacy branch the loop writes directly to the
published filename. Both branches then run the shared final verification
(lines 222-227); a loop that raised reaches the handler before that
verification, so failure of the loop and failure of the verification are
combined in one test. Returns (a path was returned, camera state,
artifacts, sleeps performed). -/
def capture_image (env : BackendEnv) (beh : Nat → CapAttempt)
    (s : CameraState) (fs : Fs) : Bool × CameraState × Fs × List Nat :=
  if s.no_camera || !s.initialized || !s.camera then (false, s, fs, [])
  else
    match s.camera_type with
    | some CamType.pica2 =>
      let fs1 : Fs := { fs with scratch := some 0 }
      match beh 0 with
      | CapAttempt.raises =>
        captureExceptHandler env s { fs1 with scratch := none }
      | CapAttempt.writes n =>
        let fs2 : Fs := { fs1 with scratch := some n }
        if 0 < n then
          let fs3 : Fs := { fs2 with scratch := none, final := some n }
          if fileOkay fs3.final then (true, s, fs3, [])
          else captureExceptHandler env s fs3
        else
          captureExceptHandler env s { fs2 with scratch := none }
    | some CamType.legacy =>
      let t := legacyGo beh 0 2 fs
      if t.1 && fileOkay t.2.1.final then (true, s, t.2.1, t.2.2)
      else
        let u := captureExceptHandler env s t.2.1
        (u.1, u.2.1, u.2.2.1, t.2.2 ++ u.2.2.2)
    | _ => captureExceptHandler env s fs

/-- The active_streams dict of client.py: client_id to the stream control
flag (True = Running, False = StopRequested), as an association list in
insertion order with unique keys. -/
abbrev Registry := List (String × Bool)

/-- k in d. -/
def dictContains : Registry → String → Bool
  | [], _ => false
  | p :: rest, k => p.1 == k || dictContains rest k

/-- d.get(k). -/
def dictGet : Registry → String → Option Bool
  | [], _ => none
  | p :: rest, k => if p.1 == k then some p.2 else dictGet rest k

/-- d[k] = v. -/
def dictSet : Registry → String → Bool → Registry
  | [], k, v => [(k, v)]
  | p :: rest, k, v => if p.1 == k then (k, v) :: rest else p :: dictSet rest k v

/-- del d[k]; dict keys are unique, so deleting the key is filtering it
out. -/
def dictDel : Registry → String → Registry
  | [], _ => []
  | p :: rest, k => if p.1 == k then dictDel rest k else p :: dictDel rest k

/-- check_battery (client.py lines 56-64): the guarded body is the
constant literal 100 and cannot raise, so the except arm returning None
is unreachable. -/
def check_battery : Option Nat := some 100

/-- Outbound image envelope built by capture_and_send_image (client.py
lines 156-163). -/
structure ImageMsg where
  type : String
  device_id : String
  image : String
  timestamp : Nat
  requesting_client_id : Option String
  battery : Option Nat

def mkImageMsg (deviceId imageData : String) (ts : Nat)
    (clientId : Option String) : ImageMsg :=
  { type := "image"
    device_id := deviceId
    image := imageData
    timestamp := ts
    requesting_client_id := clientId
    battery := check_battery }

/-- Outbound frame envelope built by start_video_stream (client.py lines
227-234). -/
structure FrameMsg where
  type : String
  device_id : String
  image : String
  timestamp : Nat
  client_id : String
  battery : Option Nat

def mkFrameMsg (deviceId frameData : String) (ts : Nat)
    (clientId : String) : FrameMsg :=
  { type := "frame"
    device_id := deviceId
    image := frameData
    timestamp := ts
    client_id := clientId
    battery := check_battery }

/-- Outbound status_update envelope built by send_status_updates
(client.py lines 321-329). -/
structure StatusMsg where
  type : String
  device_id : String
  battery : Option Nat
  uptime : Nat
  timestamp : Nat

def mkStatusMsg (deviceId : String) (uptimeSecs ts : Nat) : StatusMsg :=
  { type := "status_update"
    device_id := deviceId
    battery := check_battery
    uptime := uptimeSecs
    timestamp := ts }

/-- Inbound envelopes dispatched by handle_server_messages; the Option
String carries data.get('client_id'), none when missing. -/
inductive Msg
  | captureRequest (clientId : Option String)
  | streamRequest (clientId : Option String)
  | stopStream (clientId : Option String)
  | pong
  | errorMsg (message : String)
  | other
  deriving DecidableEq

/-- Registry effect and worker spawns of dispatching one envelope in
handle_server_messages (client.py lines 265-294). A stream_request with a
truthy client_id spawns start_video_stream(client_id) unconditionally,
with no registry lookup; a stop_stream sets the flag to False only when
the client_id is truthy and the key is present. Python truthiness: None
and the empty string are falsy. capture_request runs
capture_and_send_image, which never touches the registry and spawns no
worker. -/
def handleServerMessage (r : Registry) (m : Msg) : Registry × List String :=
  match m with
  | Msg.captureRequest _ => (r, [])
  | Msg.streamRequest (some c) => if c.isEmpty then (r, []) else (r, [c])
  | Msg.streamRequest none => (r, [])
  | Msg.stopStream (some c) =>
    (if !c.isEmpty && dictContains r c then dictSet r c false else r, [])
  | Msg.stopStream none => (r, [])
  | Msg.pong => (r, [])
  | Msg.errorMsg _ => (r, [])
  | Msg.other => (r, [])

/-- One dispatch step of the receive loop of handle_server_messages
(client.py lines 256-298), with its control effects made explicit: the
loop runs while not stop_event.is_set() and no dispatch arm calls
stop_event.set(), so the stop event is threaded through unchanged; no
dispatch arm breaks the loop either — the loop is left only by
ConnectionClosed or an outer exception, never because of a handled
envelope. In particular a capture_request awaits capture_and_send_image
and discards its boolean result (line 269), so a failed capture changes
nothing and the loop proceeds to the next receive; the discarded value is
the unused argument here, and the final Bool records that the loop
continues. -/
def routerDispatch (stopEvent : Bool) (r : Registry) (m : Msg)
    (_captureReturn : Bool) : Bool × (Registry × List String) × Bool :=
  (stopEvent, handleServerMessage r m, true)

/-- First statement of a spawned StreamWorker (client.py line 186):
active_streams[client_id] = True. -/
def streamWorkerStart (r : Registry) (c : String) : Registry := dictSet r c true

/-- Reasons a StreamWorker loop can end. -/
inductive ExitReason
  | stopRequested
  | stopEventSet
  | socketClosed
  | connectionClosed
  | unrecoverableError
  deriving DecidableEq

/-- The finally clause of start_video_stream (client.py lines 245-248):
if client_id in active_streams: del active_streams[client_id]. -/
def streamWorkerFinally (r : Registry) (c : String) : Registry :=
  if dictContains r c then dictDel r c else r

/-- The worker exit path: the finally clause runs whatever the exit
reason was. -/
def streamWorkerExit (_reason : ExitReason) (r : Registry) (c : String) : Registry :=
  streamWorkerFinally r c

/-- Loop guard of start_video_stream (client.py line 192):
while active_streams.get(client_id, False) and not stop_event.is_set(). -/
def workerLoopGuard (r : Registry) (stopEvent : Bool) (c : String) : Bool :=
  (dictGet r c).getD false && !stopEvent

/-- Side effects the client code can perform on shared session state when
a cohort task ends; cancelTask and closeConnection exist so their absence
from a path can be stated. -/
inductive Effect
  | clearRegistry
  | sleepSeconds (n : Nat)
  | reenterMainLoop
  | cancelTask
  | closeConnection
  deriving DecidableEq

/-- Tail of handle_server_messages (client.py lines 307-313), run when
the receive loop ends: if not stop_event.is_set():
active_streams.clear(); await asyncio.sleep(5); await main_loop(). No
statement on this path cancels a task or closes the websocket; client.py
contains no task cancellation anywhere. -/
def handlerReconnectEffects (stopSet : Bool) : List Effect :=
  if stopSet then []
  else [Effect.clearRegistry, Effect.sleepSeconds 5, Effect.reenterMainLoop]

/-- Action of one effect on the stream registry. -/
def applyEffect (r : Registry) : Effect → Registry
  | Effect.clearRegistry => []
  | _ => r

def applyEffects (r : Registry) (es : List Effect) : Registry :=
  es.foldl applyEffect r

/-- Outcome of the open-encode-send block of capture_and_send_image: ok,
or some step raised (a closed websocket during send, an encoding or read
error). -/
inductive TxOutcome
  | ok
  | fails
  deriving DecidableEq

/-- capture_and_send_image (client.py lines 128-173). capResult is the
value of camera.capture_image(), some meaning a path to a freshly written
artifact file. Returns (return value, whether the artifact file still
exists when the function returns). os.remove(image_path) on line 166 is
executed only after a successful send; the except arm on lines 171-173
returns False without removing the file. -/
def capture_and_send_image (hasCamera hasWebsocket : Bool)
    (capResult : Option Unit) (tx : TxOutcome) : Bool × Bool :=
  if !hasCamera || !hasWebsocket then (false, false)
  else
    match capResult with
    | none => (false, false)
    | some _ =>
      match tx with
      | TxOutcome.ok => (true, false)
      | TxOutcome.fails => (false, true)

/-- Result of connect_and_register() (client.py lines 66-126), collapsed
to its three outcomes: the registration POST failed or raised, the
websocket connect or its confirmation failed, or the session is up. -/
inductive ConnectOutcome
  | registerFail
  | connectFail
  | connected
  deriving DecidableEq

/-- What one main_loop invocation did before (or instead of) serving. -/
inductive LoopOutcome
  | stoppedCameraInit
  | retryConnect
  | serving
  deriving DecidableEq

/-- Rest of main_loop once the camera global exists (client.py lines
409-425): connect_and_register; on failure sleep 10 seconds and return;
on success spawn the cohort (serving). Returns (camera global, stop_event
flag, sleeps performed, outcome). -/
def mainLoopAfterInit (conn : ConnectOutcome) (cam : Option CameraState)
    (stopEvent : Bool) (ds : List Nat) :
    Option CameraState × Bool × List Nat × LoopOutcome :=
  match conn with
  | ConnectOutcome.registerFail => (cam, stopEvent, ds ++ [10], LoopOutcome.retryConnect)
  | ConnectOutcome.connectFail => (cam, stopEvent, ds ++ [10], LoopOutcome.retryConnect)
  | ConnectOutcome.connected => (cam, stopEvent, ds, LoopOutcome.serving)

/-- Entry of main_loop (client.py lines 400-413): if the camera global is
unset, construct PiCamera() (which always assigns the global) and
initialize(); a failed initialize sets stop_event and returns. -/
def main_loop_entry (env : BackendEnv) (conn : ConnectOutcome) (noCamera : Bool)
    (cam : Option CameraState) (stopEvent : Bool) :
    Option CameraState × Bool × List Nat × LoopOutcome :=
  match cam with
  | none =>
    let t := initializeCamera env (initCameraState noCamera)
    if !t.1 then (some t.2.1, true, t.2.2, LoopOutcome.stoppedCameraInit)
    else mainLoopAfterInit conn (some t.2.1) stopEvent t.2.2
  | some c => mainLoopAfterInit conn (some c) stopEvent []

/-- Every attempt of initializeGo increments current_attempt exactly once
and sleeps exactly once before each retry, so the final counter is the
starting counter plus the number of sleeps plus one. -/
theorem initializeGo_attempt_eq (env : BackendEnv) :
    ∀ (fuel : Nat) (s : CameraState),
      (initializeGo env fuel s).2.1.current_attempt =
        s.current_attempt + (initializeGo env fuel s).2.2.length + 1 := by
  intro fuel
  induction fuel with
  | zero =>
    intro s
    simp only [initializeGo]
    split
    · simp
    · split
      · simp
      · split <;> simp
  | succ f ih =>
    intro s
    simp only [initializeGo]
    split
    · simp
    · split
      · simp
      · split
        · have h := ih { s with current_attempt := s.current_attempt + 1 }
          simp only [List.length_cons]
          dsimp only at h ⊢
          omega
        · simp

/-- When the fuel is the retry budget still allowed by the guard, the
sleeps performed by initializeGo number at most fuel - 1: the final
attempt does not sleep. -/
theorem initializeGo_len (env : BackendEnv) :
    ∀ (fuel : Nat) (s : CameraState),
      s.current_attempt + fuel = s.max_init_attempts →
      (initializeGo env fuel s).2.2.length ≤ fuel - 1 := by
  intro fuel
  induction fuel with
  | zero =>
    intro s hs
    simp only [initializeGo]
    split
    · simp
    · split
      · simp
      · split
        · omega
        · simp
  | succ f ih =>
    intro s hs
    simp only [initializeGo]
    split
    · simp
    · split
      · simp
      · split
        · rename_i hguard
          have h := ih { s with current_attempt := s.current_attempt + 1 }
            (show s.current_attempt + 1 + f = s.max_init_attempts by omega)
          simp only [List.length_cons]
          omega
        · simp

/-- Outside NO_CAMERA mode, one initializeCamera call moves the attempt
counter up by the number of sleeps it performed plus one; in particular
the counter strictly increases and is never reset. -/
theorem initializeCamera_attempt_eq (env : BackendEnv) (s : CameraState)
    (h : s.no_camera = false) :
    (initializeCamera env s).2.1.current_attempt =
      s.current_attempt + (initializeCamera env s).2.2.length + 1 := by
  simp [initializeCamera, h, initializeGo_attempt_eq]

/-- Membership after a dict store: the stored key is present, all other
keys keep their membership. -/
theorem dictContains_dictSet (r : Registry) (k : String) (v : Bool) (j : String) :
    dictContains (dictSet r k v) j = (k == j || dictContains r j) := by
  induction r with
  | nil => simp [dictSet, dictContains]
  | cons p rest ih =>
    obtain ⟨a, b⟩ := p
    by_cases h : a = k
    · subst h
      simp [dictSet, dictContains]
    · have hb : (a == k) = false := by simp [h]
      simp only [dictSet, hb, Bool.false_eq_true, if_false, dictContains, ih]
      by_cases hj : a = j
      · subst hj
        simp [h]
      · have hbj : (a == j) = false := by simp [hj]
        simp [hbj]

/-- Storing the same key twice equals storing it once. -/
theorem dictSet_dictSet (r : Registry) (k : String) (v w : Bool) :
    dictSet (dictSet r k v) k w = dictSet r k w := by
  induction r with
  | nil => simp [dictSet]
  | cons p rest ih =>
    obtain ⟨a, b⟩ := p
    by_cases h : a = k
    · subst h
      simp [dictSet]
    · have hb : (a == k) = false := by simp [h]
      simp [dictSet, hb, ih]

/-- After deleting a key it is no longer present. -/
theorem dictContains_dictDel (r : Registry) (c : String) :
    dictContains (dictDel r c) c = false := by
  induction r with
  | nil => simp [dictDel, dictContains]
  | cons p rest ih =>
    obtain ⟨a, b⟩ := p
    by_cases h : a = c
    · subst h
      simp [dictDel, ih]
    · have hb : (a == c) = false := by simp [h]
      simp [dictDel, dictContains, hb, ih]

/-- Claim C1 fails on the code: a stream_request for viewer A arriving
while A is already present in active_streams is not ignored — the message
handler spawns a second StreamWorker for A, because client.py line 277
calls asyncio.create_task(start_video_stream(client_id)) without any
registry lookup. -/
theorem c1_counterexample_duplicate_stream_request_spawns :
    handleServerMessage [("A", true)] (Msg.streamRequest (some "A")) =
      ([("A", true)], ["A"]) ∧
    dictContains [("A", true)] "A" = true := by
  exact ⟨by decide, by decide⟩

/-- Claim C1 amended: a stream_request with a truthy client_id always
spawns a StreamWorker, with no check of registry membership; the spawned
worker then merely resets the entry to Running, so duplicate requests for
an active viewer yield several concurrent workers for that viewer ID. -/
theorem c1_stream_request_always_spawns (r : Registry) (c : String)
    (h : c.isEmpty = false) :
    handleServerMessage r (Msg.streamRequest (some c)) = (r, [c]) ∧
    streamWorkerStart r c = dictSet r c true := by
  constructor
  · simp [handleServerMessage, h]
  · rfl

/-- Claim C1, witness of the amended statement at a concrete registry and
viewer ID. -/
theorem c1_witness :
    handleServerMessage [("B", true)] (Msg.streamRequest (some "B")) =
      ([("B", true)], ["B"]) ∧
    streamWorkerStart [("B", true)] "B" = dictSet [("B", true)] "B" true :=
  c1_stream_request_always_spawns [("B", true)] "B" (by decide)

/-- Claim C2, evaluation of the code at the failing input: when capture
succeeds and the encode-or-send block raises, capture_and_send_image
returns False with the artifact file still on disk, because
os.remove(image_path) runs only after a successful send; on a successful
send the artifact is removed. The spec requires deletion even when
transmission fails, so this is a bug in the code. -/
theorem c2_artifact_leak_on_send_failure :
    capture_and_send_image true true (some ()) TxOutcome.fails = (false, true) ∧
    capture_and_send_image true true (some ()) TxOutcome.ok = (true, false) :=
  ⟨rfl, rfl⟩

/-- Claim C8: handling stop_stream twice for the same client_id field
produces the same registry as handling it once, and handling it never
adds or removes a key, so a duplicated stop_stream envelope causes no
error and no duplicate-removal fault. -/
theorem c8_stop_stream_idempotent (r : Registry) (x : Option String) :
    (handleServerMessage (handleServerMessage r (Msg.stopStream x)).1
        (Msg.stopStream x)).1 =
      (handleServerMessage r (Msg.stopStream x)).1 ∧
    ∀ k : String,
      dictContains (handleServerMessage r (Msg.stopStream x)).1 k =
        dictContains r k := by
  cases x with
  | none => simp [handleServerMessage]
  | some c =>
    by_cases he : c.isEmpty
    · simp [handleServerMessage, he]
    · have he' : c.isEmpty = false := by simpa using he
      by_cases hc : dictContains r c = true
      · constructor
        · simp [handleServerMessage, he', hc, dictContains_dictSet, dictSet_dictSet]
        · intro k
          simp only [handleServerMessage, he', hc, Bool.not_false, Bool.true_and, if_true]
          rw [dictContains_dictSet]
          by_cases hk : c = k
          · subst hk
            simp [hc]
          · simp [hk]
      · have hc' : dictContains r c = false := by simpa using hc
        simp [handleServerMessage, he', hc']

/-- Claim C7 fails as stated: the StreamWorker is not the sole writer
performing removals from the registry — the reconnect path of
handle_server_messages clears the whole registry (active_streams.clear(),
client.py line 311), here removing the entry of viewer X although the
worker for X has not run its exit path. -/
theorem c7_counterexample_handler_clears_entries :
    dictContains [("X", true)] "X" = true ∧
    applyEffects [("X", true)] (handlerReconnectEffects false) = [] ∧
    streamWorkerExit ExitReason.stopRequested [("X", true)] "X" = [] := by
  refine ⟨by decide, by decide, by decide⟩

/-- Claim C7 amended: on every exit reason the worker finally-clause
removes its own entry when still present, so after a worker exits the
registry never contains its key; the message-handler reconnect path is
however a second writer of removals. -/
theorem c7_worker_exit_removes_entry (reason : ExitReason) (r : Registry) (c : String) :
    dictContains (streamWorkerExit reason r c) c = false := by
  unfold streamWorkerExit streamWorkerFinally
  cases hc : dictContains r c with
  | true => simp [dictContains_dictDel]
  | false => simp [hc]

/-- Claim C6 fails as stated: the path run when the message router exits
without an external stop contains no task cancellation and no connection
close — client.py lines 307-313 only clear the registry, sleep 5 seconds
and recursively re-enter main_loop, and client.py contains no task
cancellation anywhere. -/
theorem c6_counterexample_no_cancel_no_close :
    Effect.cancelTask ∉ handlerReconnectEffects false ∧
    Effect.closeConnection ∉ handlerReconnectEffects false ∧
    handlerReconnectEffects false ≠ [] := by decide

/-- Claim C6 amended: on a router exit without external stop the code
clears the StreamRegistry — making every StreamWorker loop guard false,
so workers stop at their next iteration check — waits the fixed 5-second
delay and re-enters the main loop; when the stop event is set nothing is
done. No cancellation of the keepalive tasks and no close of the
connection happens on this path. -/
theorem c6_reconnect_clears_registry (r : Registry) (stopEvent : Bool) (c : String) :
    handlerReconnectEffects false =
      [Effect.clearRegistry, Effect.sleepSeconds 5, Effect.reenterMainLoop] ∧
    workerLoopGuard (applyEffects r (handlerReconnectEffects false)) stopEvent c = false ∧
    handlerReconnectEffects true = [] :=
  ⟨rfl, rfl, rfl⟩

/-- Claim C9: check_battery always returns 100, and the battery field of
every outbound image, frame and status_update envelope equals 100,
whatever the other fields are. -/
theorem c9_battery_constant (deviceId imageData frameData : String) (ts u : Nat)
    (reqClient : Option String) (streamClient : String) :
    check_battery = some 100 ∧
    (mkImageMsg deviceId imageData ts reqClient).battery = some 100 ∧
    (mkFrameMsg deviceId frameData ts streamClient).battery = some 100 ∧
    (mkStatusMsg deviceId u ts).battery = some 100 :=
  ⟨rfl, rfl, rfl, rfl⟩

/-- Claim C3 fails on the code: with a fresh camera whose initialization
budget is exhausted, main_loop sets stop_event and returns (client.py
lines 404-407), terminating the session loop although no external stop
signal was raised and a connection was available. -/
theorem c3_counterexample_camera_init_failure_stops :
    main_loop_entry ⟨fun _ => false, fun _ => false⟩ ConnectOutcome.connected false
        none false =
      (some ⟨false, false, none, false, 3, 3⟩, true, [10, 10],
        LoopOutcome.stoppedCameraInit) := rfl

/-- Claim C3 amended: registration and connection failures leave the stop
event untouched and return for a wait-and-retry (10-second sleep before
returning to the outer loop); a dispatched capture_request — including
one whose capture_and_send_image failed and returned False — leaves the
stop event and the registry unchanged, spawns nothing, and lets the
receive loop continue; while camera-initialization exhaustion on a fresh
camera sets the stop event and ends the session loop. -/
theorem c3_connect_failures_retry (env : BackendEnv) (c : CameraState)
    (stopEvent : Bool) :
    main_loop_entry env ConnectOutcome.registerFail false (some c) stopEvent =
      (some c, stopEvent, [10], LoopOutcome.retryConnect) ∧
    main_loop_entry env ConnectOutcome.connectFail false (some c) stopEvent =
      (some c, stopEvent, [10], LoopOutcome.retryConnect) ∧
    main_loop_entry env ConnectOutcome.connected false (some c) stopEvent =
      (some c, stopEvent, [], LoopOutcome.serving) ∧
    ∀ (st : Bool) (r : Registry) (cid : Option String) (capReturn : Bool),
      routerDispatch st r (Msg.captureRequest cid) capReturn = (st, (r, []), true) :=
  ⟨rfl, rfl, rfl, fun _ _ _ _ => rfl⟩

/-- Claim C4: starting from a fresh PiCamera, initialize sleeps at most
twice, records at most 3 attempts, and when every backend attempt fails
it terminates and returns False after exactly 3 attempts and the 2 fixed
10-second inter-attempt delays. -/
theorem c4_initialize_budget (env : BackendEnv) (s : CameraState)
    (hnc : s.no_camera = false) (hmax : s.max_init_attempts = 3)
    (hcur : s.current_attempt = 0) :
    (initializeCamera env s).2.2.length ≤ 2 ∧
    (initializeCamera env s).2.1.current_attempt ≤ 3 ∧
    ((∀ k, env.tryPicamera2 k = false) → (∀ k, env.tryLegacy k = false) →
      initializeCamera env s = (false, { s with current_attempt := 3 }, [10, 10])) := by
  have hgo : initializeCamera env s = initializeGo env 3 s := by
    simp [initializeCamera, hnc, hmax, hcur]
  have hlen : (initializeCamera env s).2.2.length ≤ 2 := by
    have h := initializeGo_len env 3 s (by omega)
    rw [hgo]
    omega
  refine ⟨hlen, ?_, ?_⟩
  · have h := initializeCamera_attempt_eq env s hnc
    omega
  · intro hp hl
    rw [hgo]
    simp [initializeGo, hp, hl, hmax, hcur]

/-- Claim C4, witness: a fresh camera with both backends failing on every
attempt returns False with counter 3 and sleeps [10, 10]. -/
theorem c4_witness :
    initializeCamera ⟨fun _ => false, fun _ => false⟩
        ⟨false, false, none, false, 3, 0⟩ =
      (false, ⟨false, false, none, false, 3, 3⟩, [10, 10]) :=
  (c4_initialize_budget ⟨fun _ => false, fun _ => false⟩
    ⟨false, false, none, false, 3, 0⟩ rfl rfl rfl).2.2 (fun _ => rfl) (fun _ => rfl)

/-- Claim C10: current_attempt only grows with each initialize call and
is never reset for the lifetime of the object, so once the counter has
reached the budget of 3, a further initialize call with failing backends
makes exactly one more backend-pair attempt and returns False with no
10-second sleep. -/
theorem c10_attempt_budget_is_global (env : BackendEnv) (s : CameraState)
    (hnc : s.no_camera = false) (hmax : s.max_init_attempts = 3)
    (hcur : 3 ≤ s.current_attempt)
    (hp : env.tryPicamera2 (s.current_attempt + 1) = false)
    (hl : env.tryLegacy (s.current_attempt + 1) = false) :
    initializeCamera env s =
      (false, { s with current_attempt := s.current_attempt + 1 }, []) ∧
    ∀ env2 : BackendEnv,
      s.current_attempt + 1 ≤ (initializeCamera env2 s).2.1.current_attempt := by
  constructor
  · have hf : s.max_init_attempts - s.current_attempt = 0 := by omega
    have hlt : ¬ (s.current_attempt + 1 < s.max_init_attempts) := by omega
    simp [initializeCamera, hnc, hf, initializeGo, hp, hl, hlt]
  · intro env2
    have h := initializeCamera_attempt_eq env2 s hnc
    omega

/-- Claim C10, witness: a camera whose counter already reached 3 makes a
single further attempt, returns False without sleeping, and the counter
moves to 4. -/
theorem c10_witness :
    initializeCamera ⟨fun _ => false, fun _ => false⟩
        ⟨false, false, none, false, 3, 3⟩ =
      (false, ⟨false, false, none, false, 3, 4⟩, []) ∧
    ∀ env2 : BackendEnv,
      4 ≤ (initializeCamera env2 ⟨false, false, none, false, 3, 3⟩).2.1.current_attempt :=
  c10_attempt_budget_is_global ⟨fun _ => false, fun _ => false⟩
    ⟨false, false, none, false, 3, 3⟩ rfl rfl (by decide) rfl rfl

/-- Claim C5 fails for the legacy backend: a legacy capture writes
directly to the published path, and when all three attempts write empty
files capture_image returns None while a zero-byte file remains at that
published path (camera.py lines 199-218 never remove it; the failure
handler only reinitializes the backend). -/
theorem c5_counterexample_legacy_zero_byte :
    capture_image ⟨fun _ => false, fun _ => false⟩ (fun _ => CapAttempt.writes 0)
        ⟨true, true, some CamType.legacy, false, 3, 0⟩ ⟨none, none⟩ =
      (false, ⟨false, false, some CamType.legacy, false, 3, 3⟩,
        ⟨none, some 0⟩, [1, 1, 2, 10, 10]) := rfl

/-- Claim C5 amended: for the picamera2 backend capture_image writes to
the scratch file first, verifies it non-empty and publishes it
atomically; on every path the scratch file is gone afterwards, a success
leaves a positive-size published file, and a failure leaves no published
file at all. The legacy backend has no such guarantee. -/
theorem c5_picamera2_scratch_then_publish (env : BackendEnv) (beh : Nat → CapAttempt)
    (s : CameraState) (fs : Fs)
    (hct : s.camera_type = some CamType.pica2) (hnc : s.no_camera = false)
    (hini : s.initialized = true) (hcam : s.camera = true) (hfin : fs.final = none) :
    (capture_image env beh s fs).2.2.1.scratch = none ∧
    ((capture_image env beh s fs).1 = true →
      ∃ n, 0 < n ∧ (capture_image env beh s fs).2.2.1.final = some n) ∧
    ((capture_image env beh s fs).1 = false →
      (capture_image env beh s fs).2.2.1.final = none) := by
  obtain ⟨sc, fin⟩ := fs
  simp only at hfin
  subst hfin
  rcases hb : beh 0 with _ | n
  · simp [capture_image, captureExceptHandler, cleanup, hct, hnc, hini, hcam, hb]
  · by_cases hn : 0 < n
    · simp [capture_image, captureExceptHandler, cleanup, fileOkay, hct, hnc, hini,
        hcam, hb, hn]
    · simp [capture_image, captureExceptHandler, cleanup, fileOkay, hct, hnc, hini,
        hcam, hb, hn]

/-- Claim C5, witness of the amended statement: a picamera2 capture that
writes 7 bytes publishes a 7-byte file and leaves no scratch file. -/
theorem c5_witness :
    (capture_image ⟨fun _ => false, fun _ => false⟩ (fun _ => CapAttempt.writes 7)
        ⟨true, true, some CamType.pica2, false, 3, 0⟩ ⟨none, none⟩).2.2.1.scratch = none ∧
    ((capture_image ⟨fun _ => false, fun _ => false⟩ (fun _ => CapAttempt.writes 7)
        ⟨true, true, some CamType.pica2, false, 3, 0⟩ ⟨none, none⟩).1 = true →
      ∃ n, 0 < n ∧
        (capture_image ⟨fun _ => false, fun _ => false⟩ (fun _ => CapAttempt.writes 7)
          ⟨true, true, some CamType.pica2, false, 3, 0⟩ ⟨none, none⟩).2.2.1.final = some n) ∧
    ((capture_image ⟨fun _ => false, fun _ => false⟩ (fun _ => CapAttempt.writes 7)
        ⟨true, true, some CamType.pica2, false, 3, 0⟩ ⟨none, none⟩).1 = false →
      (capture_image ⟨fun _ => false, fun _ => false⟩ (fun _ => CapAttempt.writes 7)
        ⟨true, true, some CamType.pica2, false, 3, 0⟩ ⟨none, none⟩).2.2.1.final = none) :=
  c5_picamera2_scratch_then_publish ⟨fun _ => false, fun _ => false⟩
    (fun _ => CapAttempt.writes 7) ⟨true, true, some CamType.pica2, false, 3, 0⟩
    ⟨none, none⟩ rfl rfl rfl rfl rfl
